import Mathlib

/-!
Verification development for the Magic repository (src/server.js).

The source file concatenates three program variants of the same automation
bot.  We embed the scheduling/retry core of each variant as pure Lean
functions:

* `VariantA` — lines 1–805 of src/server.js (performSpin, refreshJWTToken,
  calculateNextSpinTime with second-valued jitter bounds).
* `VariantB` — lines 806–1500 (executeSpin, refreshToken, checkFunds,
  claimAchievements, calculateNextSpinTime with minute-valued jitter
  bounds, isWithinActiveWindow, logActivity, the /api/users endpoint that
  serves the raw userData map).
* `VariantC` — lines 1501–1855 (buySpin, executeSpin, openPack,
  startSpinLoop, safeUsersSnapshot).

Modelling conventions, uniform across all variants:
* An instant of time is a `Time`: its epoch milliseconds (`ms`, the value of
  `Date.now()`) together with its UTC hour and minute components (used by the
  active-window check).  Configured `HH:MM` strings are modelled as already
  parsed `(hour, minute)` pairs; `timeToMinutes` is the `h*60+m` computation
  the source performs after `split(':').map(Number)`.
* `Math.random()` is an explicit rational parameter `r` (in the real program
  `0 ≤ r < 1`); `Math.floor` is `Int.floor`.
* Every network call is resolved against an explicit oracle: either a single
  response value, or a list of responses consumed in call order (the
  recursive retry-after-refresh pattern consumes one response per attempt,
  so recursion is structural on the oracle list; an exhausted oracle behaves
  like a transport failure carrying no HTTP status).
* `axios` errors never escape `makeAPIRequest`/`sendAPIRequest`: both wrap
  the call in try/catch and return a `{success: false, ...}` object, so the
  embedded executors are total functions returning result values.
* Wall-clock bookkeeping strings (`lastRefresh`, `lastUpdate`, `jwtExpiry`)
  and the text of log messages do not influence any control flow; the
  bounded-log mechanics (`logActivity`) are embedded as their own state
  transition on log lists rather than threaded through every executor.
-/

/-- One (timestamp, userId, message) activity-log entry. -/
structure LogEntry where
  timestamp : String
  userId : String
  message : String
deriving DecidableEq, Repr

/-- An instant: epoch milliseconds plus its UTC hour/minute components. -/
structure Time where
  ms : Int
  hh : Nat
  mm : Nat
deriving DecidableEq, Repr

namespace VariantB

/-- `timeToMinutes` (src/server.js:1311–1314): `HH:MM` (modelled as an
already-parsed hour/minute pair) to minute-of-day. -/
def timeToMinutes (t : Nat × Nat) : Nat :=
  t.1 * 60 + t.2

/-- Per-account state of variant B (src/server.js:957–970), with the static
configuration fields spread into the same record exactly as `loadUserConfig`
does.  Wall-clock bookkeeping strings and the daily counters that no claim
touches are kept where a claim's executor reads or writes them. -/
structure User where
  userId : String
  refreshToken : String
  userClaimAchivID : String
  dayStart : Nat × Nat
  dayEnd : Nat × Nat
  baseInterval : Nat
  randomScale1 : Nat
  randomScale2 : Nat
  jwtToken : Option String
  nextSpinTime : Option Int
  spinCount : Nat
  achievementsClaimed : Nat
  lastFunds : Nat
  dailyFundsChecks : Nat
  isActive : Bool
  logs : List LogEntry
deriving DecidableEq, Repr

/-- `isWithinActiveWindow` (src/server.js:1299–1309): current UTC
minute-of-day lies in the closed interval `[dayStart, dayEnd]`. -/
def isWithinActiveWindow (u : User) (t : Time) : Bool :=
  let currentUTC := t.hh * 60 + t.mm
  decide (timeToMinutes u.dayStart ≤ currentUTC) &&
    decide (currentUTC ≤ timeToMinutes u.dayEnd)

/-- The arithmetic of `calculateNextSpinTime` (src/server.js:1271–1296):
`baseInterval` minutes plus `Math.floor(r * (randomScale2Ms - randomScale1Ms)
+ randomScale1Ms)` milliseconds (both scales are minute-valued in this
variant), added to `Date.now()`. -/
def nextSpinMs (base rs1 rs2 : Nat) (r : ℚ) (now : Int) : Int :=
  let baseIntervalMs : Int := (base : Int) * 60 * 1000
  let randomScale1Ms : Int := (rs1 : Int) * 60 * 1000
  let randomScale2Ms : Int := (rs2 : Int) * 60 * 1000
  let randomAddMs : Int :=
    Int.floor (r * ((randomScale2Ms : ℚ) - (randomScale1Ms : ℚ)) + (randomScale1Ms : ℚ))
  now + (baseIntervalMs + randomAddMs)

/-- `calculateNextSpinTime` (src/server.js:1271–1296): computes the jittered
delay and stores the resulting instant into `user.nextSpinTime`. -/
def calculateNextSpinTime (u : User) (r : ℚ) (now : Int) : User :=
  { u with nextSpinTime := some (nextSpinMs u.baseInterval u.randomScale1 u.randomScale2 r now) }

/-- Response shape read by `refreshToken` (src/server.js:1028–1030):
`result.success`, `result.data.data?.jwt`, `result.data.data?.refreshToken`. -/
structure RefreshResp where
  success : Bool
  jwt : Option String
  newRefreshToken : Option String
deriving DecidableEq, Repr

/-- `refreshToken` (src/server.js:1010–1053).  On `success && data.data?.jwt`
stores the new JWT, marks the account active and rotates the refresh
credential unless the payload says `"Not provided"`; otherwise marks the
account inactive and returns `false` without touching any stored token. -/
def refreshToken (u : User) (resp : RefreshResp) : Bool × User :=
  match resp.success, resp.jwt with
  | true, some newJWT =>
    let u1 := { u with jwtToken := some newJWT, isActive := true }
    let u2 :=
      match resp.newRefreshToken with
      | some rt => if rt ≠ "Not provided" then { u1 with refreshToken := rt } else u1
      | none => u1
    (true, u2)
  | _, _ => (false, { u with isActive := false })

/-- Response shape read by `checkFunds` (src/server.js:1093–1094):
`result.success`, HTTP status, presence of `result.data.data`, and
`result.data.data.silvercoins` (defaulted to 0 by `|| 0`). -/
structure FundsResp where
  success : Bool
  status : Option Nat
  hasData : Bool
  silvercoins : Option Nat
deriving DecidableEq, Repr

/-- `checkFunds` (src/server.js:1079–1110).  The funds endpoint's responses
and the refresh endpoint's responses are consumed in order from the two
oracle lists (one funds response per attempt, one refresh response per
refresh invocation).  On a 401 the function invokes `refreshToken` and, if
the refresh succeeded, re-enters itself (`return await checkFunds(userId)`).
The third output counts refresh invocations. -/
def checkFunds (u : User) (fundsResps : List FundsResp) (refreshResps : List RefreshResp) :
    Option Nat × User × Nat :=
  if u.jwtToken.isNone then (none, u, 0)
  else
    match fundsResps with
    | [] => (none, u, 0)
    | r :: rest =>
      if r.success && r.hasData then
        let silvercoins := r.silvercoins.getD 0
        (some silvercoins,
          { u with lastFunds := silvercoins, dailyFundsChecks := u.dailyFundsChecks + 1 }, 0)
      else if r.status = some 401 then
        match refreshResps with
        | [] => (none, { u with isActive := false }, 1)
        | rf :: rfRest =>
          let (ok, u1) := refreshToken u rf
          if ok then
            let (res, u2, n) := checkFunds u1 rest rfRest
            (res, u2, n + 1)
          else (none, u1, 1)
      else (none, u, 0)

/-- `item.progress` of an achievement item: `{ claimAvailable }`. -/
structure AchProgress where
  claimAvailable : Bool
deriving DecidableEq, Repr

/-- One achievement item as read by `claimAchievements`
(src/server.js:1149–1153): an `id` and an optional `progress` object. -/
structure AchItem where
  id : Nat
  progress : Option AchProgress
deriving DecidableEq, Repr

/-- The listing payload `result.data.data` with its four category arrays,
each possibly absent (the source guards `if (data[category])`). -/
structure AchListing where
  achievements : Option (List AchItem)
  daily : Option (List AchItem)
  weekly : Option (List AchItem)
  monthly : Option (List AchItem)
deriving DecidableEq, Repr

/-- Response shape of the achievement-listing call. -/
structure ListingResp where
  success : Bool
  status : Option Nat
  listing : Option AchListing
deriving DecidableEq, Repr

/-- The `validIDs` collection loop (src/server.js:1143–1155): for each of the
four categories, in order, every item whose `progress?.claimAvailable` is
truthy contributes its id. -/
def claimableIDs (L : AchListing) : List Nat :=
  let collect : Option (List AchItem) → List Nat := fun o =>
    ((o.getD []).filter (fun item => (item.progress.map AchProgress.claimAvailable).getD false)).map AchItem.id
  collect L.achievements ++ collect L.daily ++ collect L.weekly ++ collect L.monthly

/-- `claimAchievements` (src/server.js:1112–1196).  Listing responses are
consumed in order from `listResps` (one per attempt: a 401 listing failure
triggers `refreshToken` and, on refresh success, a full recursive retry);
`claimOk id` gives the outcome of the claim call for achievement `id`.
Returns the count of successful claims, the updated user, and the list of
claim calls issued (one per collected id, in order).  A success response
whose payload is missing throws in the source and is caught by the
surrounding try/catch, returning 0 — the same result as an empty listing. -/
def claimAchievements (u : User) (listResps : List ListingResp)
    (refreshResps : List RefreshResp) (claimOk : Nat → Bool) :
    Nat × User × List Nat :=
  if u.jwtToken.isNone then (0, u, [])
  else
    match listResps with
    | [] => (0, u, [])
    | r :: rest =>
      if r.success then
        let L := r.listing.getD ⟨none, none, none, none⟩
        let validIDs := claimableIDs L
        if validIDs.isEmpty then (0, u, [])
        else
          let totalClaimed := (validIDs.filter claimOk).length
          (totalClaimed,
            { u with achievementsClaimed := u.achievementsClaimed + totalClaimed }, validIDs)
      else if r.status = some 401 then
        match refreshResps with
        | [] => (0, { u with isActive := false }, [])
        | rf :: rfRest =>
          let (ok, u1) := refreshToken u rf
          if ok then claimAchievements u1 rest rfRest claimOk
          else (0, u1, [])
      else (0, u, [])

/-- Response shape read by `executeSpin` (src/server.js:1227–1240):
`result.success`, HTTP status, and `result.data.data.id`. -/
structure SpinResp where
  success : Bool
  status : Option Nat
  id : Option Nat
deriving DecidableEq, Repr

/-- The inline `prizeMap` lookup of `executeSpin` (src/server.js:1243–1253). -/
def prizeName (resultId : Nat) : String :=
  if resultId = 11755 then "5,000 Silvercoins"
  else if resultId = 11750 then "Core Standard Pack"
  else if resultId = 11749 then "500 Silvercoins"
  else if resultId = 11754 then "1,000,000 Silvercoins"
  else if resultId = 11753 then "100,000 Silvercoins"
  else if resultId = 11752 then "2,500 Silvercoins"
  else if resultId = 11751 then "1,000 Silvercoins"
  else "ID = " ++ toString resultId

/-- `executeSpin` (src/server.js:1199–1268).  With no JWT it still schedules
(the fix noted in the source comment); outside the active window it returns
without touching the schedule; otherwise the spin response is processed — a
401 triggers one `refreshToken` without retrying the spin — and the
`finally` block always calls `calculateNextSpinTime`. -/
def executeSpin (u : User) (t : Time) (spinResp : SpinResp)
    (refreshResp : RefreshResp) (r : ℚ) : Option String × User :=
  if u.jwtToken.isNone then (none, calculateNextSpinTime u r t.ms)
  else if ¬ isWithinActiveWindow u t then (none, u)
  else
    let (prize, u1) :=
      if spinResp.success then
        let resultId := spinResp.id.getD 0
        (some (prizeName resultId), { u with spinCount := u.spinCount + 1 })
      else if spinResp.status = some 401 then
        let (_, u1) := refreshToken u refreshResp
        (none, u1)
      else (none, u)
    (prize, calculateNextSpinTime u1 r t.ms)

/-- The per-user half of `logActivity` (src/server.js:1333–1346) together
with the global log: unshift the new entry, then keep the newest 1000
globally and the newest 200 for the user. -/
def logActivity (g : List LogEntry) (u : User) (e : LogEntry) :
    List LogEntry × User :=
  ((e :: g).take 1000, { u with logs := (e :: u.logs).take 200 })

/-- Any number of consecutive `logActivity` appends, oldest first. -/
def appendLogs (g : List LogEntry) (u : User) (es : List LogEntry) :
    List LogEntry × User :=
  es.foldl (fun p e => logActivity p.1 p.2 e) (g, u)

/-- Rendering of an optional string field in a JSON response. -/
def optVal (o : Option String) : String :=
  o.getD "null"

/-- The serialized key/value pairs of one stored user object as produced by
`res.json(userData)` in the `/api/users` route (src/server.js:1444–1446):
every field of the record built by `loadUserConfig` (src/server.js:957–970)
is included, the raw `refreshToken` and `jwtToken` among them. -/
def serializeUser (u : User) : List (String × String) :=
  [("userId", u.userId),
   ("refreshToken", u.refreshToken),
   ("userClaimAchivID", u.userClaimAchivID),
   ("dayStart", toString u.dayStart.1 ++ ":" ++ toString u.dayStart.2),
   ("dayEnd", toString u.dayEnd.1 ++ ":" ++ toString u.dayEnd.2),
   ("baseInterval", toString u.baseInterval),
   ("randomScale1", toString u.randomScale1),
   ("randomScale2", toString u.randomScale2),
   ("jwtToken", optVal u.jwtToken),
   ("nextSpinTime", optVal (u.nextSpinTime.map toString)),
   ("spinCount", toString u.spinCount),
   ("achievementsClaimed", toString u.achievementsClaimed),
   ("lastFunds", toString u.lastFunds),
   ("dailyFundsChecks", toString u.dailyFundsChecks),
   ("isActive", toString u.isActive),
   ("logs", toString u.logs.length)]

/-- The `/api/users` route of this variant (src/server.js:1444–1446): the
whole `userData` map, serialized as-is. -/
def usersEndpoint (store : List User) : List (String × List (String × String)) :=
  store.map (fun u => (u.userId, serializeUser u))

end VariantB

namespace VariantA

/-- Per-account spinner statistics (src/server.js:55–61).  `spinResults`
keeps the result ids of the newest 30 spins. -/
structure SpinnerStats where
  totalSpins : Nat
  spinsToday : Nat
  nextSpin : Option Int
  spinResults : List Nat
deriving DecidableEq, Repr

/-- Per-account state of variant A (src/server.js:48–78), restricted to the
fields its spin path reads or writes.  The configured `HH:MM` strings are
zero-padded, so the source's lexicographic string comparison in
`isWithinActiveWindow` (src/server.js:154) coincides with comparing the
parsed minute-of-day values used here. -/
structure User where
  userId : String
  refreshToken : String
  dayStart : Nat × Nat
  dayEnd : Nat × Nat
  baseInterval : Nat
  randomScale1 : Nat
  randomScale2 : Nat
  currentJWT : Option String
  spinnerStats : SpinnerStats
  isActive : Bool
deriving DecidableEq, Repr

/-- `isWithinActiveWindow` (src/server.js:144–155): the current `HH:MM`
is between `dayStart` and `dayEnd`, both ends included. -/
def isWithinActiveWindow (u : User) (t : Time) : Bool :=
  let currentTime := t.hh * 60 + t.mm
  decide (u.dayStart.1 * 60 + u.dayStart.2 ≤ currentTime) &&
    decide (currentTime ≤ u.dayEnd.1 * 60 + u.dayEnd.2)

/-- The arithmetic of this variant's `calculateNextSpinTime`
(src/server.js:194–212): here the jitter bounds are second-valued —
`Math.floor(r * (randomScale2 - randomScale1) + randomScale1) * 1000`
milliseconds on top of `baseInterval` minutes. -/
def nextSpinMs (base rs1 rs2 : Nat) (r : ℚ) (now : Int) : Int :=
  let baseIntervalMs : Int := (base : Int) * 60 * 1000
  let randomAddMs : Int :=
    Int.floor (r * (((rs2 : Int) : ℚ) - ((rs1 : Int) : ℚ)) + ((rs1 : Int) : ℚ)) * 1000
  now + (baseIntervalMs + randomAddMs)

/-- Response shape read by `refreshJWTToken` (src/server.js:294–317):
`result.success`, presence of `result.data && result.data.data` (`hasData`),
and the payload's `jwt` and `refreshToken` fields (each possibly absent). -/
structure RefreshResp where
  success : Bool
  hasData : Bool
  jwt : Option String
  newRefreshToken : Option String
deriving DecidableEq, Repr

/-- `refreshJWTToken` (src/server.js:275–322).  The success branch is
guarded by `result.success && result.data && result.data.data` only — the
`jwt` field itself is not checked, so a 2xx payload carrying the nested
data object but no `jwt` still takes the success branch, assigns the absent
value to `user.currentJWT` and reports success.  The success branch also
rotates the refresh credential unless it reads `"Not provided"`.  The
failure branch only logs and reports failure: this variant never touches
`isActive` (nothing in it ever deactivates an account). -/
def refreshJWTToken (u : User) (resp : RefreshResp) : Bool × User :=
  if resp.success && resp.hasData then
    let u1 := { u with currentJWT := resp.jwt }
    let u2 :=
      match resp.newRefreshToken with
      | some rt => if rt ≠ "Not provided" then { u1 with refreshToken := rt } else u1
      | none => u1
    (true, u2)
  else (false, u)

/-- Response shape read by `performSpin` (src/server.js:479–520):
`result.success`, presence of `result.data`, `result.data.data?.id`, the
HTTP status, and whether `result.error` contains the word `expired`. -/
structure SpinResp where
  success : Bool
  status : Option Nat
  hasData : Bool
  id : Option Nat
  errorIncludesExpired : Bool
deriving DecidableEq, Repr

/-- `performSpin` (src/server.js:454–527).  On a successful spin the
statistics are updated and `calculateNextSpinTime` stores a fresh
`nextSpin`; on a failed spin the only reaction is a one-shot
`refreshJWTToken` when the error looks like a JWT expiry — the stored
`nextSpin` is NOT recomputed on any failure path. -/
def performSpin (u : User) (t : Time) (spinResp : SpinResp)
    (refreshResp : RefreshResp) (r : ℚ) : Option Nat × User :=
  if u.currentJWT.isNone then (none, u)
  else if ¬ isWithinActiveWindow u t then (none, u)
  else if spinResp.success && spinResp.hasData then
    let resultId := spinResp.id.getD 0
    let stats := u.spinnerStats
    let stats1 :=
      { stats with
          totalSpins := stats.totalSpins + 1
          spinsToday := stats.spinsToday + 1
          spinResults := (resultId :: stats.spinResults).take 30
          nextSpin := some (nextSpinMs u.baseInterval u.randomScale1 u.randomScale2 r t.ms) }
    (some resultId, { u with spinnerStats := stats1 })
  else
    if spinResp.errorIncludesExpired || spinResp.status = some 401 then
      let (_, u1) := refreshJWTToken u refreshResp
      (none, u1)
    else (none, u)

end VariantA

namespace VariantC

/-- The spin payload `result.data.data` (src/server.js:1691–1698): the
result id and the ids of any packs granted. -/
structure SpinPayload where
  id : Nat
  packs : List Nat
deriving DecidableEq, Repr

/-- A uniform response for this variant's four endpoints, covering every
field any of their handlers reads: `success`, the HTTP status, the refresh
payload's `data.data?.jwt`, and the spin payload `data.data`. -/
structure Resp where
  success : Bool
  status : Option Nat
  jwt : Option String
  spinData : Option SpinPayload
deriving DecidableEq, Repr

/-- Per-account state of variant C (src/server.js:1546–1556). -/
structure User where
  userId : String
  refreshToken : String
  jwtToken : Option String
  isActive : Bool
  spinCount : Nat
  packsOpened : Nat
  lastError : Option String
  logs : List LogEntry
deriving DecidableEq, Repr

/-- `refreshToken` (src/server.js:1591–1613): on `success && data.data?.jwt`
stores the JWT and activates the account; otherwise deactivates it. -/
def refreshToken (u : User) (resp : Resp) : Bool × User :=
  match resp.success, resp.jwt with
  | true, some newJWT => (true, { u with jwtToken := some newJWT, isActive := true })
  | _, _ => (false, { u with isActive := false })

/-- `buySpin` (src/server.js:1616–1638).  Responses are consumed in order
from the stream (the buy call first; a 401 consumes one more response for
the refresh and, on refresh success, recurses — `return await
buySpin(userId)`).  An exhausted stream behaves like a transport failure. -/
def buySpin (u : User) (stream : List Resp) : Bool × User × List Resp :=
  if u.jwtToken.isNone then (false, u, stream)
  else
    match stream with
    | [] => (false, u, [])
    | r :: rest =>
      if r.success then (true, u, rest)
      else if r.status = some 401 then
        match rest with
        | [] => (false, { u with isActive := false }, [])
        | rf :: rest2 =>
          let (ok, u1) := refreshToken u rf
          if ok then buySpin u1 rest2 else (false, u1, rest2)
      else (false, u, rest)

/-- `openPack` (src/server.js:1641–1664), same response-stream discipline
as `buySpin`; `packId` only populates the request body. -/
def openPack (u : User) (stream : List Resp) (packId : Nat) : Bool × User × List Resp :=
  if u.jwtToken.isNone then (false, u, stream)
  else
    match stream with
    | [] => (false, u, [])
    | r :: rest =>
      if r.success then (true, { u with packsOpened := u.packsOpened + 1 }, rest)
      else if r.status = some 401 then
        match rest with
        | [] => (false, { u with isActive := false }, [])
        | rf :: rest2 =>
          let (ok, u1) := refreshToken u rf
          if ok then openPack u1 rest2 packId else (false, u1, rest2)
      else (false, u, rest)

/-- `executeSpin` (src/server.js:1667–1705).  A failed spin with status 401
refreshes and, on refresh success, retries recursively; a successful spin
whose result id is one of the pack prizes with a non-empty `packs` array
additionally opens the first granted pack. -/
def executeSpin (u : User) (stream : List Resp) : Option Nat × User × List Resp :=
  if u.jwtToken.isNone then (none, u, stream)
  else
    match stream with
    | [] => (none, u, [])
    | r :: rest =>
      if ¬ r.success then
        if r.status = some 401 then
          match rest with
          | [] => (none, { u with isActive := false }, [])
          | rf :: rest2 =>
            let (ok, u1) := refreshToken u rf
            if ok then executeSpin u1 rest2 else (none, u1, rest2)
        else (none, u, rest)
      else
        let spinData := r.spinData.getD ⟨0, []⟩
        let resultId := spinData.id
        let u1 := { u with spinCount := u.spinCount + 1 }
        if (resultId = 11848 ∨ resultId = 11782 ∨ resultId = 11750) ∧ spinData.packs ≠ [] then
          let (_, u2, rest2) := openPack u1 rest (spinData.packs.headD 0)
          (some resultId, u2, rest2)
        else (some resultId, u1, rest)

/-- `startSpinLoop` (src/server.js:1708–1752), driven by an explicit fuel
bound on the number of iterations.  Each pass of the `while (user.isActive)`
body buys a spin (a failure breaks with `lastError = 'Failed to buy spin'`)
and then executes it (a `null` result breaks with `lastError = 'Failed to
execute spin'`).  The `catch` clauses for 429 and 403 are unreachable:
`makeAPIRequest` (src/server.js:1565–1588) catches every axios error and
returns a `{success: false, status}` value, and nothing else in the `try`
body throws, so the loop's only exits are the two `break`s above and the
`while` condition itself. -/
def startSpinLoop (u : User) (stream : List Resp) : Nat → User × List Resp
  | 0 => (u, stream)
  | fuel + 1 =>
    if ¬ u.isActive then (u, stream)
    else
      let (buySuccess, u1, s1) := buySpin u stream
      if ¬ buySuccess then ({ u1 with lastError := some "Failed to buy spin" }, s1)
      else
        let (spinResult, u2, s2) := executeSpin u1 s1
        match spinResult with
        | none => ({ u2 with lastError := some "Failed to execute spin" }, s2)
        | some _ => startSpinLoop u2 s2 fuel

/-- One user's entry in `safeUsersSnapshot` (src/server.js:1796–1809),
as serialized key/value pairs: exactly the six listed fields. -/
def safeUserFields (u : User) : List (String × String) :=
  [("userId", u.userId),
   ("isActive", toString u.isActive),
   ("spinCount", toString u.spinCount),
   ("packsOpened", toString u.packsOpened),
   ("lastError", u.lastError.getD "null"),
   ("logs", toString (u.logs.take 20).length)]

/-- `safeUsersSnapshot` over the whole store, served by this variant's
`/api/users` route (src/server.js:1816–1818). -/
def safeUsersSnapshot (store : List User) : List (String × List (String × String)) :=
  store.map (fun u => (u.userId, safeUserFields u))

end VariantC

/-! Concrete inputs used to evaluate the embedded functions. -/

/-- A variant-A account with a stale past `nextSpin` (500 ms), a stored JWT
and an all-day active window. -/
def demoUserA : VariantA.User :=
  { userId := "u1", refreshToken := "rt", dayStart := (0, 0), dayEnd := (23, 59),
    baseInterval := 10, randomScale1 := 0, randomScale2 := 0,
    currentJWT := some "jwt",
    spinnerStats := { totalSpins := 3, spinsToday := 1, nextSpin := some 500, spinResults := [] },
    isActive := true }

/-- Noon UTC, epoch-millisecond value 1000000. -/
def demoTimeA : Time := { ms := 1000000, hh := 12, mm := 0 }

/-- A failed spin response that is not an authorization failure. -/
def demoFailSpinA : VariantA.SpinResp :=
  { success := false, status := some 500, hasData := false, id := none,
    errorIncludesExpired := false }

/-- A failed refresh response for variant A. -/
def demoRefreshFailA : VariantA.RefreshResp :=
  { success := false, hasData := false, jwt := none, newRefreshToken := none }

/-- A variant-A refresh response with a 2xx result whose payload lacks the
nested data object (and hence the token field). -/
def demoRefreshNoTokenA : VariantA.RefreshResp :=
  { success := true, hasData := false, jwt := none, newRefreshToken := none }

/-- A variant-A refresh response with a 2xx result whose payload carries
the nested data object but no `jwt` field. -/
def demoRefreshEmptyDataA : VariantA.RefreshResp :=
  { success := true, hasData := true, jwt := none, newRefreshToken := none }

/-- A variant-B account configured with `baseInterval = 10`,
`randomScale1 = randomScale2 = 0`, an all-day window, a stored JWT and a
stale past `nextSpinTime`. -/
def demoUserB10 : VariantB.User :=
  { userId := "u1", refreshToken := "rt", userClaimAchivID := "grp",
    dayStart := (0, 0), dayEnd := (23, 59),
    baseInterval := 10, randomScale1 := 0, randomScale2 := 0,
    jwtToken := some "jwt", nextSpinTime := some 400,
    spinCount := 0, achievementsClaimed := 7, lastFunds := 0,
    dailyFundsChecks := 0, isActive := true, logs := [] }

/-- A variant-B account configured with `baseInterval = 0` and both jitter
bounds 0. -/
def demoUserB0 : VariantB.User :=
  { demoUserB10 with baseInterval := 0 }

/-- 12:30 UTC, epoch-millisecond value 5000. -/
def demoTimeB : Time := { ms := 5000, hh := 12, mm := 30 }

/-- A spin response failing with HTTP 401. -/
def demoSpin401 : VariantB.SpinResp := { success := false, status := some 401, id := none }

/-- A successful refresh response for variant B. -/
def demoRefreshOkB : VariantB.RefreshResp :=
  { success := true, jwt := some "jwt2", newRefreshToken := none }

/-- A refresh response with a 2xx result whose payload lacks the `jwt`
field. -/
def demoRefreshNoTokenB : VariantB.RefreshResp :=
  { success := true, jwt := none, newRefreshToken := some "rt2" }

/-- A funds response failing with HTTP 401. -/
def demoFunds401 : VariantB.FundsResp :=
  { success := false, status := some 401, hasData := false, silvercoins := none }

/-- A successful funds response carrying a balance. -/
def demoFundsOk : VariantB.FundsResp :=
  { success := true, status := some 200, hasData := true, silvercoins := some 123 }

/-- Two log entries. -/
def demoEntry1 : LogEntry := { timestamp := "t1", userId := "u1", message := "m1" }

/-- See `demoEntry1`. -/
def demoEntry2 : LogEntry := { timestamp := "t2", userId := "u1", message := "m2" }

/-- An achievement listing whose four categories hold no claimable item:
one item with `claimAvailable = false`, one with no `progress` object, one
empty category and one absent category. -/
def demoListing : VariantB.AchListing :=
  { achievements := some [{ id := 1, progress := some { claimAvailable := false } },
                          { id := 2, progress := none }],
    daily := some [],
    weekly := none,
    monthly := some [{ id := 3, progress := some { claimAvailable := false } }] }

/-- A successful listing response carrying `demoListing`. -/
def demoListingResp : VariantB.ListingResp :=
  { success := true, status := some 200, listing := some demoListing }

/-- A variant-B account whose stored record carries raw secrets. -/
def demoLeakUser : VariantB.User :=
  { demoUserB10 with jwtToken := some "SECRET-JWT", refreshToken := "SECRET-REFRESH" }

/-- An active variant-C account with a stored JWT. -/
def demoUserC : VariantC.User :=
  { userId := "u1", refreshToken := "rt", jwtToken := some "jwt", isActive := true,
    spinCount := 0, packsOpened := 0, lastError := none, logs := [] }

/-- A 403 (forbidden/suspended) response. -/
def demoResp403 : VariantC.Resp :=
  { success := false, status := some 403, jwt := none, spinData := none }

/-- A 429 (rate-limited) response. -/
def demoResp429 : VariantC.Resp :=
  { success := false, status := some 429, jwt := none, spinData := none }

/-- A successful buy-spin response. -/
def demoRespBuyOk : VariantC.Resp :=
  { success := true, status := some 200, jwt := none, spinData := none }

/-- A successful spin response with a non-pack prize. -/
def demoRespSpinOk : VariantC.Resp :=
  { success := true, status := some 200, jwt := none, spinData := some { id := 11749, packs := [] } }

/-! Theorems. -/

/-- `refreshToken` never touches the scheduling configuration fields. -/
theorem refreshToken_config (u : VariantB.User) (rf : VariantB.RefreshResp) :
    ((VariantB.refreshToken u rf).2).baseInterval = u.baseInterval ∧
    ((VariantB.refreshToken u rf).2).randomScale1 = u.randomScale1 ∧
    ((VariantB.refreshToken u rf).2).randomScale2 = u.randomScale2 := by
  unfold VariantB.refreshToken
  rcases rf with ⟨s, j, n⟩
  cases s
  · cases j <;> simp
  · cases j
    · simp
    · cases n
      · simp
      · simp only
        split <;> simp

/-- Claim C4: the active-window evaluator returns `true` exactly when the
minute-of-day of the current UTC time lies in the closed interval from
`dayStart` to `dayEnd`; both boundary minutes are therefore included, and
any time outside the closed interval yields `false`. -/
theorem isWithinActiveWindow_iff (u : VariantB.User) (t : Time) :
    VariantB.isWithinActiveWindow u t = true ↔
      (VariantB.timeToMinutes u.dayStart ≤ t.hh * 60 + t.mm ∧
       t.hh * 60 + t.mm ≤ VariantB.timeToMinutes u.dayEnd) := by
  simp [VariantB.isWithinActiveWindow]

/-- Claim C5 counterexample: the claim's cited `refreshJWTToken` (variant
A), given a 2xx refresh response whose payload lacks the nested data object
and hence the token field, returns `false` as the claim says — but the
account it leaves behind is completely unchanged: its active flag is still
`true`, not `false`.  Nothing in variant A ever deactivates an account. -/
theorem refreshJWTToken_keeps_active_flag :
    demoUserA.isActive = true ∧
    (VariantA.refreshJWTToken demoUserA demoRefreshNoTokenA).1 = false ∧
    (VariantA.refreshJWTToken demoUserA demoRefreshNoTokenA).2 = demoUserA ∧
    ¬ ((VariantA.refreshJWTToken demoUserA demoRefreshNoTokenA).2.isActive = false) := by
  decide

/-- Claim C5 (amended): in the variant-B `refreshToken`, any response that
is not a success carrying a `jwt` field (non-2xx, transport failure, or a
2xx payload lacking the token field) yields `false`, sets the active flag
to `false`, and leaves the stored JWT and refresh credential unchanged.
In the variant-A `refreshJWTToken`, a failed attempt (non-2xx, transport
failure, or a payload lacking the nested data object) returns `false` and
leaves the account entirely unchanged — the active flag is never cleared;
moreover a 2xx payload that carries the nested data object but lacks the
`jwt` field is treated as a success: it reports `true` and overwrites the
stored token with an absent value. -/
theorem refresh_failure_per_variant (uB : VariantB.User) (respB : VariantB.RefreshResp)
    (uA : VariantA.User) (respA respA2 : VariantA.RefreshResp)
    (hB : ¬ (respB.success = true ∧ respB.jwt.isSome = true))
    (hA : respA.success = false ∨ respA.hasData = false)
    (h2s : respA2.success = true) (h2d : respA2.hasData = true) (h2j : respA2.jwt = none) :
    ((VariantB.refreshToken uB respB).1 = false ∧
     ((VariantB.refreshToken uB respB).2).isActive = false ∧
     ((VariantB.refreshToken uB respB).2).jwtToken = uB.jwtToken ∧
     ((VariantB.refreshToken uB respB).2).refreshToken = uB.refreshToken) ∧
    VariantA.refreshJWTToken uA respA = (false, uA) ∧
    ((VariantA.refreshJWTToken uA respA2).1 = true ∧
     ((VariantA.refreshJWTToken uA respA2).2).currentJWT = none) := by
  refine ⟨?_, ?_, ?_⟩
  · unfold VariantB.refreshToken
    rcases respB with ⟨s, j, n⟩
    cases s <;> cases j <;> simp_all
  · unfold VariantA.refreshJWTToken
    rcases hA with h | h <;> simp [h]
  · unfold VariantA.refreshJWTToken
    simp only [h2s, h2d, Bool.and_self, if_true, h2j]
    cases hn : respA2.newRefreshToken with
    | none => simp
    | some rt =>
      simp only
      split <;> simp

/-- Claim C5 witness: the amended behaviour evaluated at concrete inputs —
a variant-B 2xx response lacking the token field, a variant-A 2xx response
lacking the nested data object, and a variant-A 2xx response whose data
object lacks the `jwt` field. -/
theorem refresh_failure_per_variant_witness :
    ((VariantB.refreshToken demoUserB10 demoRefreshNoTokenB).1 = false ∧
     ((VariantB.refreshToken demoUserB10 demoRefreshNoTokenB).2).isActive = false ∧
     ((VariantB.refreshToken demoUserB10 demoRefreshNoTokenB).2).jwtToken = demoUserB10.jwtToken ∧
     ((VariantB.refreshToken demoUserB10 demoRefreshNoTokenB).2).refreshToken = demoUserB10.refreshToken) ∧
    VariantA.refreshJWTToken demoUserA demoRefreshNoTokenA = (false, demoUserA) ∧
    ((VariantA.refreshJWTToken demoUserA demoRefreshEmptyDataA).1 = true ∧
     ((VariantA.refreshJWTToken demoUserA demoRefreshEmptyDataA).2).currentJWT = none) :=
  refresh_failure_per_variant demoUserB10 demoRefreshNoTokenB demoUserA
    demoRefreshNoTokenA demoRefreshEmptyDataA (by decide) (Or.inr (by decide))
    (by decide) (by decide) (by decide)

/-- Claim C10: with `baseInterval = 10` minutes and both jitter bounds 0,
the jitter term `Math.floor(r * (randomScale2Ms - randomScale1Ms) +
randomScale1Ms)` vanishes for every random draw `r`, so the stored
next-action timestamp is exactly the computation time plus 10 minutes
(600000 ms). -/
theorem calculateNextSpinTime_degenerate (u : VariantB.User) (r : ℚ) (now : Int)
    (hbase : u.baseInterval = 10) (h1 : u.randomScale1 = 0) (h2 : u.randomScale2 = 0) :
    (VariantB.calculateNextSpinTime u r now).nextSpinTime = some (now + 600000) := by
  simp [VariantB.calculateNextSpinTime, VariantB.nextSpinMs, hbase, h1, h2]

/-- Claim C10 witness: the degenerate schedule evaluated at a concrete
account, random draw 1/3 and time 7. -/
theorem calculateNextSpinTime_degenerate_witness :
    (VariantB.calculateNextSpinTime demoUserB10 (1/3) 7).nextSpinTime = some (7 + 600000) :=
  calculateNextSpinTime_degenerate demoUserB10 (1/3) 7 rfl rfl rfl

/-- Claim C9: when the fetched achievement listing holds zero claimable
items across the four categories, `claimAchievements` returns 0, issues no
claim calls, and leaves the account (in particular its cumulative
`achievementsClaimed` counter) unchanged. -/
theorem claimAchievements_no_claimable (u : VariantB.User) (r : VariantB.ListingResp)
    (rest : List VariantB.ListingResp) (rr : List VariantB.RefreshResp)
    (claimOk : Nat → Bool) (hs : r.success = true)
    (hz : VariantB.claimableIDs (r.listing.getD ⟨none, none, none, none⟩) = []) :
    VariantB.claimAchievements u (r :: rest) rr claimOk = (0, u, []) ∧
    ((VariantB.claimAchievements u (r :: rest) rr claimOk).2.1).achievementsClaimed =
      u.achievementsClaimed := by
  have h : VariantB.claimAchievements u (r :: rest) rr claimOk = (0, u, []) := by
    unfold VariantB.claimAchievements
    by_cases hj : u.jwtToken.isNone
    · simp [hj]
    · simp [hj, hs, hz]
  exact ⟨h, by rw [h]⟩

/-- Claim C9 witness: a concrete listing with unclaimable, progress-less,
empty and absent categories yields count 0, no claim calls and an unchanged
account. -/
theorem claimAchievements_no_claimable_witness :
    VariantB.claimAchievements demoUserB10 [demoListingResp] [] (fun _ => true) =
      (0, demoUserB10, []) ∧
    ((VariantB.claimAchievements demoUserB10 [demoListingResp] [] (fun _ => true)).2.1).achievementsClaimed =
      demoUserB10.achievementsClaimed :=
  claimAchievements_no_claimable demoUserB10 demoListingResp [] [] (fun _ => true)
    (by decide) (by decide)

/-- Claim C7 (code bug): `makeAPIRequest` converts every axios error into a
returned `{success: false, status}` value, so `startSpinLoop`'s catch
handlers for 429 (cooldown and resume) and 403 (deactivate) can never run.
A remote 403 therefore makes `buySpin` return `false`, and the loop breaks
with `lastError = "Failed to buy spin"` while the account's `isActive` flag
stays `true`; a remote 429 likewise breaks the loop instead of pausing and
resuming — the two later successful responses are left unconsumed. -/
theorem startSpinLoop_dead_handlers :
    ((VariantC.startSpinLoop demoUserC [demoResp403] 5).1.isActive = true ∧
     (VariantC.startSpinLoop demoUserC [demoResp403] 5).1.lastError = some "Failed to buy spin") ∧
    ((VariantC.startSpinLoop demoUserC [demoResp429, demoRespBuyOk, demoRespSpinOk] 5).1.lastError =
        some "Failed to buy spin" ∧
     (VariantC.startSpinLoop demoUserC [demoResp429, demoRespBuyOk, demoRespSpinOk] 5).2 =
        [demoRespBuyOk, demoRespSpinOk]) := by
  decide

/-- Claim C8 (code bug): the variant-B `/api/users` route serves the stored
`userData` records verbatim, so the response for an account carries its raw
`jwtToken` and `refreshToken` values; the variant-C route is the one that
excludes them, serving only the six `safeUsersSnapshot` fields. -/
theorem usersEndpoint_exposes_tokens :
    (VariantB.usersEndpoint [demoLeakUser]).map Prod.snd = [VariantB.serializeUser demoLeakUser] ∧
    ("jwtToken", "SECRET-JWT") ∈ VariantB.serializeUser demoLeakUser ∧
    ("refreshToken", "SECRET-REFRESH") ∈ VariantB.serializeUser demoLeakUser ∧
    (∀ u : VariantC.User,
      "jwtToken" ∉ (VariantC.safeUserFields u).map Prod.fst ∧
      "refreshToken" ∉ (VariantC.safeUserFields u).map Prod.fst) := by
  refine ⟨by decide, by decide, by decide, ?_⟩
  intro u
  constructor <;> simp [VariantC.safeUserFields]

/-- Claim C1 counterexample: a variant-A account that is Due (stored
`nextSpin` 500 ≤ now 1000000) and inside its active window executes
`performSpin`; the spin fails remotely (HTTP 500), and afterwards the stored
next-action timestamp is still the old stale value 500 — no new timestamp
was computed and stored, and the retained one is not in the future. -/
theorem performSpin_keeps_stale_schedule :
    VariantA.isWithinActiveWindow demoUserA demoTimeA = true ∧
    demoUserA.spinnerStats.nextSpin = some 500 ∧
    (500 : Int) ≤ demoTimeA.ms ∧
    ((VariantA.performSpin demoUserA demoTimeA demoFailSpinA demoRefreshFailA 0).2).spinnerStats.nextSpin = some 500 ∧
    ¬ ((demoTimeA.ms : Int) < 500) := by
  decide

/-- Claim C1 (amended): in the variant-B `executeSpin`, for a Due account
inside its active window, every outcome — success, remote failure, or a 401
followed by any refresh outcome — ends with a freshly computed next-action
timestamp stored in `nextSpinTime`, so the account is armed again. -/
theorem executeSpin_always_reschedules (u : VariantB.User) (t : Time)
    (sp : VariantB.SpinResp) (rf : VariantB.RefreshResp) (r : ℚ)
    (_hdue : u.nextSpinTime = none ∨ ∃ ts, u.nextSpinTime = some ts ∧ ts ≤ t.ms)
    (hwin : VariantB.isWithinActiveWindow u t = true) :
    ((VariantB.executeSpin u t sp rf r).2).nextSpinTime =
      some (VariantB.nextSpinMs u.baseInterval u.randomScale1 u.randomScale2 r t.ms) := by
  unfold VariantB.executeSpin
  by_cases hj : u.jwtToken.isNone
  · simp [hj, VariantB.calculateNextSpinTime]
  · by_cases hs : sp.success
    · simp [hj, hwin, hs, VariantB.calculateNextSpinTime]
    · by_cases h4 : sp.status = some 401
      · obtain ⟨h1, h2, h3⟩ := refreshToken_config u rf
        simp [hj, hwin, hs, h4, VariantB.calculateNextSpinTime, h1, h2, h3]
      · simp [hj, hwin, hs, h4, VariantB.calculateNextSpinTime]

/-- Claim C1 witness: a Due account inside its window whose spin fails with
a 401 and whose refresh succeeds still ends with a freshly computed
timestamp. -/
theorem executeSpin_always_reschedules_witness :
    ((VariantB.executeSpin demoUserB10 demoTimeB demoSpin401 demoRefreshOkB 0).2).nextSpinTime =
      some (VariantB.nextSpinMs demoUserB10.baseInterval demoUserB10.randomScale1
        demoUserB10.randomScale2 0 demoTimeB.ms) :=
  executeSpin_always_reschedules demoUserB10 demoTimeB demoSpin401 demoRefreshOkB 0
    (Or.inr ⟨400, by decide, by decide⟩) (by decide)

/-- Claim C3 counterexample: with `baseInterval = 0` and both jitter bounds
0 (all allowed by the claim's `baseInterval ≥ 0`, `0 ≤ randomScale1 ≤
randomScale2`), the computed next-action timestamp equals the current time
1000 exactly — it is not strictly greater. -/
theorem calculateNextSpinTime_not_strict :
    (VariantB.calculateNextSpinTime demoUserB0 0 1000).nextSpinTime = some 1000 ∧
    ¬ ((1000 : Int) < 1000) := by
  constructor
  · show some (VariantB.nextSpinMs demoUserB0.baseInterval demoUserB0.randomScale1
      demoUserB0.randomScale2 0 1000) = some 1000
    norm_num [VariantB.nextSpinMs, demoUserB0, demoUserB10]
  · omega

/-- Claim C3 (amended): for `randomScale1 ≤ randomScale2` and a nonnegative
random draw, the stored next-action timestamp is greater than or equal to
the current time, and strictly greater as soon as `baseInterval ≥ 1`
minute; equality is possible exactly in the degenerate
`baseInterval = 0` configurations. -/
theorem calculateNextSpinTime_future (u : VariantB.User) (r : ℚ) (now : Int)
    (hscale : u.randomScale1 ≤ u.randomScale2) (hr : 0 ≤ r) :
    (VariantB.calculateNextSpinTime u r now).nextSpinTime =
      some (VariantB.nextSpinMs u.baseInterval u.randomScale1 u.randomScale2 r now) ∧
    now ≤ VariantB.nextSpinMs u.baseInterval u.randomScale1 u.randomScale2 r now ∧
    (1 ≤ u.baseInterval →
      now < VariantB.nextSpinMs u.baseInterval u.randomScale1 u.randomScale2 r now) := by
  have hadd : (0 : Int) ≤ Int.floor (r * (((u.randomScale2 : Int) * 60 * 1000 : Int) -
      ((u.randomScale1 : Int) * 60 * 1000 : Int) : ℚ) +
      (((u.randomScale1 : Int) * 60 * 1000 : Int) : ℚ)) := by
    apply Int.le_floor.mpr
    push_cast
    have hd : (0 : ℚ) ≤ (u.randomScale2 : ℚ) * 60 * 1000 - (u.randomScale1 : ℚ) * 60 * 1000 := by
      have : (u.randomScale1 : ℚ) ≤ (u.randomScale2 : ℚ) := by exact_mod_cast hscale
      nlinarith
    nlinarith [mul_nonneg hr hd]
  refine ⟨rfl, ?_, ?_⟩
  · unfold VariantB.nextSpinMs
    have hbase : (0 : Int) ≤ (u.baseInterval : Int) * 60 * 1000 := by positivity
    push_cast at hadd ⊢
    linarith
  · intro hb
    unfold VariantB.nextSpinMs
    have hbase : (60000 : Int) ≤ (u.baseInterval : Int) * 60 * 1000 := by
      have : (1 : Int) ≤ (u.baseInterval : Int) := by exact_mod_cast hb
      linarith
    push_cast at hadd ⊢
    linarith

/-- Claim C3 witness: the amended bound evaluated at a concrete account
(`baseInterval = 10`, jitter bounds 0 ≤ 0), random draw 1/2 and time 0. -/
theorem calculateNextSpinTime_future_witness :
    (VariantB.calculateNextSpinTime demoUserB10 (1/2) 0).nextSpinTime =
      some (VariantB.nextSpinMs demoUserB10.baseInterval demoUserB10.randomScale1
        demoUserB10.randomScale2 (1/2) 0) ∧
    (0 : Int) ≤ VariantB.nextSpinMs demoUserB10.baseInterval demoUserB10.randomScale1
      demoUserB10.randomScale2 (1/2) 0 ∧
    (1 ≤ demoUserB10.baseInterval →
      (0 : Int) < VariantB.nextSpinMs demoUserB10.baseInterval demoUserB10.randomScale1
        demoUserB10.randomScale2 (1/2) 0) :=
  calculateNextSpinTime_future demoUserB10 (1/2) 0 (by decide) (by norm_num)

/-- Claim C2 counterexample: one originating `checkFunds` call whose funds
endpoint answers 401 twice and then succeeds, with every refresh
succeeding, invokes the token refresh twice — the recursive
`return await checkFunds(userId)` repeats the refresh-and-retry cycle, so
refresh is not invoked at most once per originating call. -/
theorem checkFunds_refreshes_twice :
    (VariantB.checkFunds demoUserB10 [demoFunds401, demoFunds401, demoFundsOk]
      [demoRefreshOkB, demoRefreshOkB]).2.2 = 2 ∧
    ¬ ((VariantB.checkFunds demoUserB10 [demoFunds401, demoFunds401, demoFundsOk]
      [demoRefreshOkB, demoRefreshOkB]).2.2 ≤ 1) := by
  decide

/-- Claim C2 (amended): each 401 response to the funds call triggers one
refresh invocation followed, when the refresh succeeds, by a full recursive
retry of the call; the number of refresh invocations of one originating
`checkFunds` call is therefore bounded by the number of 401 responses the
funds endpoint returns, not by one. -/
theorem checkFunds_refresh_bound (u : VariantB.User) (fundsResps : List VariantB.FundsResp)
    (refreshResps : List VariantB.RefreshResp) :
    (VariantB.checkFunds u fundsResps refreshResps).2.2 ≤
      fundsResps.countP (fun resp => decide (resp.status = some 401)) := by
  induction fundsResps generalizing u refreshResps with
  | nil =>
    unfold VariantB.checkFunds
    split <;> simp
  | cons r rest ih =>
    unfold VariantB.checkFunds
    by_cases hj : u.jwtToken.isNone
    · simp [hj]
    · simp only [hj, if_false]
      by_cases hsucc : (r.success && r.hasData) = true
      · simp [hsucc]
      · simp only [hsucc, if_false, Bool.false_eq_true]
        by_cases h4 : r.status = some 401
        · simp only [h4, if_true, if_pos]
          match refreshResps with
          | [] =>
            simp [List.countP_cons, h4]
          | rf :: rfRest =>
            rcases hrt : VariantB.refreshToken u rf with ⟨ok, u1⟩
            cases ok with
            | true =>
              rcases hcf : VariantB.checkFunds u1 rest rfRest with ⟨res, u2, n⟩
              have hb := ih u1 rfRest
              rw [hcf] at hb
              simp at hb
              simp only [hrt, hcf, if_true]
              simp [List.countP_cons, h4]
              omega
            | false =>
              simp only [hrt, Bool.false_eq_true, if_false]
              simp [List.countP_cons, h4]
        · simp [h4]

/-- Claim C6: starting from any per-account log within the 200-entry cap,
any sequence of `logActivity` appends leaves the retained log within the
cap, and after at least one append the most recently appended entry sits at
index 0 of the retained log. -/
theorem logActivity_cap (g : List LogEntry) (u : VariantB.User) (es : List LogEntry)
    (h : u.logs.length ≤ 200) :
    ((VariantB.appendLogs g u es).2).logs.length ≤ 200 ∧
    (es ≠ [] → ((VariantB.appendLogs g u es).2).logs.head? = es.getLast?) := by
  induction es generalizing g u with
  | nil => exact ⟨h, fun hne => absurd rfl hne⟩
  | cons e es ih =>
    have hstep : VariantB.appendLogs g u (e :: es) =
        VariantB.appendLogs ((e :: g).take 1000)
          { u with logs := (e :: u.logs).take 200 } es := rfl
    rw [hstep]
    have hlen : ({ u with logs := (e :: u.logs).take 200 } : VariantB.User).logs.length ≤ 200 := by
      simp [List.length_take]
    obtain ⟨ih1, ih2⟩ := ih ((e :: g).take 1000) _ hlen
    refine ⟨ih1, fun _ => ?_⟩
    cases es with
    | nil =>
      show (((e :: u.logs).take 200).head? = [e].getLast?)
      have h200 : (e :: u.logs).take 200 = e :: u.logs.take 199 := rfl
      rw [h200]
      simp
    | cons e2 es2 =>
      have h2 := ih2 (by simp)
      rw [List.getLast?_cons_cons]
      exact h2

/-- Claim C6 witness: appending two entries to an empty per-account log
stays within the cap and leaves the second entry at index 0. -/
theorem logActivity_cap_witness :
    ((VariantB.appendLogs [] demoUserB10 [demoEntry1, demoEntry2]).2).logs.length ≤ 200 ∧
    ((VariantB.appendLogs [] demoUserB10 [demoEntry1, demoEntry2]).2).logs.head? = some demoEntry2 := by
  have h := logActivity_cap [] demoUserB10 [demoEntry1, demoEntry2] (by decide)
  exact ⟨h.1, (h.2 (by decide)).trans (by decide)⟩
